import Mathlib

/-
Verification of the RecipeRandomizer recipe selector.

Shallow embedding of src/recipe_selector.py: the recipe record, the
filter_recipes function (including Python truthiness of the optional
criteria), the load_recipes error handling, and the random-pick branch of
main.  Python strings are Lean Strings, Python ints are Nat (cooking
times are positive minutes), dicts with the fixed recipe fields are a
structure, and the random source of random.choice is made explicit as an
index argument.
-/

/-- A recipe record as stored in recipes.json and consumed by the app:
name, cuisine, cost, cooking_time, ingredients, directions. -/
structure Recipe where
  name : String
  cuisine : String
  cost : String
  cooking_time : Nat
  ingredients : List String
  directions : List String
deriving DecidableEq

/-- A concrete recipe used to evaluate the definitions on closed inputs. -/
def sampleRecipe : Recipe :=
  { name := "Pasta", cuisine := "Italian", cost := "$", cooking_time := 30,
    ingredients := ["pasta"], directions := ["boil"] }

/-- A second concrete recipe. -/
def sampleRecipe2 : Recipe :=
  { name := "Tacos", cuisine := "Mexican", cost := "$$", cooking_time := 45,
    ingredients := ["tortilla"], directions := ["fry"] }

/-- Python truthiness of an Optional[str] value: None and the empty string
are falsy, every other string is truthy. -/
def truthyStr : Option String → Bool
  | none => false
  | some s => !(s == "")

/-- Python truthiness of an Optional[int] value: None and 0 are falsy. -/
def truthyNat : Option Nat → Bool
  | none => false
  | some n => !(n == 0)

/-- Python str.lower, modelled character-wise (the recipe data is ASCII,
where Char.toLower agrees with Python). -/
def pyLower (s : String) : String := ⟨s.data.map Char.toLower⟩

/-- Embedding of filter_recipes (src/recipe_selector.py lines 76-92).
Each criterion is guarded by a Python truthiness test (if cost: / if
cuisine: / if max_time:) and, when truthy, keeps the recipes matching the
criterion via a list comprehension. -/
def filter_recipes (recipes : List Recipe) (cost : Option String)
    (cuisine : Option String) (max_time : Option Nat) : List Recipe :=
  let filtered := recipes
  let filtered := if truthyStr cost then
    filtered.filter (fun r => r.cost == cost.getD "") else filtered
  let filtered := if truthyStr cuisine then
    filtered.filter (fun r => pyLower r.cuisine == pyLower (cuisine.getD "")) else filtered
  let filtered := if truthyNat max_time then
    filtered.filter (fun r => decide (r.cooking_time ≤ max_time.getD 0)) else filtered
  filtered

/-- Pointwise effect of the cost stage of filter_recipes on one recipe. -/
def costPred (cost : Option String) (r : Recipe) : Bool :=
  !(truthyStr cost) || (r.cost == cost.getD "")

/-- Pointwise effect of the cuisine stage of filter_recipes on one recipe. -/
def cuisinePred (cuisine : Option String) (r : Recipe) : Bool :=
  !(truthyStr cuisine) || (pyLower r.cuisine == pyLower (cuisine.getD ""))

/-- Pointwise effect of the max_time stage of filter_recipes on one recipe. -/
def timePred (max_time : Option Nat) (r : Recipe) : Bool :=
  !(truthyNat max_time) || decide (r.cooking_time ≤ max_time.getD 0)

/-- The three cost tiers of the data model (GLOSSARY of the spec). -/
def isCostTier (c : String) : Prop := c = "$" ∨ c = "$$" ∨ c = "$$$"

/-- Embedding of random.choice on a list, with the random source made
explicit: an index i < length chosen uniformly at random. -/
def randomChoice (l : List Recipe) (i : Nat) (h : i < l.length) : Recipe :=
  l.get ⟨i, h⟩

/-- Visible outcome of the Surprise Me button branch of main. -/
inductive SurpriseOutcome where
  | errorMessage (msg : String)
  | displayed (r : Recipe)
deriving DecidableEq

/-- Embedding of the random-pick branch of main (src/recipe_selector.py
lines 225-233): an empty filtered list shows st.error, otherwise
random.choice picks an element (the uniform random draw enters as the
index i, reduced modulo the length) and the recipe is displayed. -/
def surpriseMe (filtered : List Recipe) (i : Nat) : SurpriseOutcome :=
  match filtered with
  | [] => .errorMessage "No recipes match your criteria. Try adjusting the filters!"
  | a :: rest => .displayed (randomChoice (a :: rest) (i % (a :: rest).length)
      (Nat.mod_lt i (Nat.succ_pos rest.length)))

/-- The equally likely values of the explicit random source for a list of
length n: the indices 0, ..., n-1. -/
def indexDraws (n : Nat) : List Nat := List.range n

/-- Probability that the uniform random source for a list of length n
takes the value i: the number of draws equal to i over n. -/
def drawProb (n i : Nat) : ℚ := ((indexDraws n).count i : ℚ) / (n : ℚ)

/-- State of the recipes.json data source as seen by load_recipes:
the file may be absent (open raises FileNotFoundError), present but not
decodable as JSON (json.load raises JSONDecodeError), or decodable, in
which case it may or may not carry a "recipes" key holding the list. -/
inductive SourceData where
  | notFound : SourceData
  | badJson : SourceData
  | parsed : Option (List Recipe) → SourceData
deriving DecidableEq

/-- Outcome of a Python call: a normal return together with the st.error
messages reported to the user, or an uncaught exception propagating to
the caller. -/
inductive PyOutcome (α : Type) where
  | returns (val : α) (reported : List String)
  | raises (exn : String)
deriving DecidableEq

/-- Embedding of load_recipes (src/recipe_selector.py lines 63-74): the
try body opens the file, decodes it and indexes the "recipes" key; the
two except clauses catch exactly FileNotFoundError and JSONDecodeError,
report via st.error and return []. Indexing a decoded document that has
no "recipes" key raises KeyError, which no clause catches. -/
def load_recipes (src : SourceData) (file_path : String) : PyOutcome (List Recipe) :=
  match src with
  | .parsed (some recipes) => .returns recipes []
  | .parsed none => .raises "KeyError: recipes"
  | .notFound => .returns [] ["Recipe file not found: " ++ file_path]
  | .badJson => .returns [] ["Error decoding recipe file. Please check the JSON format."]

/-- A data source that is missing or malformed: anything but a decoded
document carrying the "recipes" list. -/
def missingOrMalformed : SourceData → Bool
  | .parsed (some _) => false
  | _ => true

/-- Heap of Python list objects: addresses are positions, allocation
appends. Recipe dicts are only ever read by filter_recipes, so they are
embedded as immutable values inside the lists. -/
abbrev Heap := List (List Recipe)

/-- A list comprehension [r for r in lst if p(r)] evaluated against the
heap: it reads the list at addr and allocates a fresh list for its
result, leaving every existing object untouched. -/
def comprehensionFilter (h : Heap) (addr : Nat) (p : Recipe → Bool) : Heap × Nat :=
  (h ++ [(h.getD addr []).filter p], h.length)

/-- Heap-level embedding of filter_recipes: the local name filtered
starts as an alias of the caller's list and each truthy criterion rebinds
it to a freshly allocated comprehension result. The pair is the final
heap and the address of the returned list. -/
def filter_recipes_heap (h : Heap) (recipesAddr : Nat) (cost : Option String)
    (cuisine : Option String) (max_time : Option Nat) : Heap × Nat :=
  let st1 := if truthyStr cost then
    comprehensionFilter h recipesAddr (fun r => r.cost == cost.getD "")
    else (h, recipesAddr)
  let st2 := if truthyStr cuisine then
    comprehensionFilter st1.1 st1.2 (fun r => pyLower r.cuisine == pyLower (cuisine.getD ""))
    else st1
  if truthyNat max_time then
    comprehensionFilter st2.1 st2.2 (fun r => decide (r.cooking_time ≤ max_time.getD 0))
    else st2

/- ---------------------------------------------------------------- -/
/- Helper lemmas -/
/- ---------------------------------------------------------------- -/

lemma filter_guard (b : Bool) (p : Recipe → Bool) (l : List Recipe) :
    (if b then l.filter p else l) = l.filter (fun r => !b || p r) := by
  cases b <;> simp

lemma filter_recipes_eq_filter (rs : List Recipe) (c q : Option String) (t : Option Nat) :
    filter_recipes rs c q t =
      rs.filter (fun r => costPred c r && cuisinePred q r && timePred t r) := by
  simp only [filter_recipes, costPred, cuisinePred, timePred]
  rw [filter_guard, filter_guard, filter_guard, List.filter_filter, List.filter_filter]
  refine List.filter_congr fun a _ => ?_
  cases (!truthyStr c || (a.cost == c.getD "")) <;>
    cases (!truthyStr q || (pyLower a.cuisine == pyLower (q.getD ""))) <;>
    cases (!truthyNat t || decide (a.cooking_time ≤ t.getD 0)) <;> rfl

lemma filter_recipes_cost_only (rs : List Recipe) (c : Option String) :
    filter_recipes rs c none none = rs.filter (costPred c) := by
  rw [filter_recipes_eq_filter]
  refine List.filter_congr fun a _ => ?_
  simp [cuisinePred, timePred, truthyStr, truthyNat]

lemma filter_recipes_cuisine_only (rs : List Recipe) (q : Option String) :
    filter_recipes rs none q none = rs.filter (cuisinePred q) := by
  rw [filter_recipes_eq_filter]
  refine List.filter_congr fun a _ => ?_
  simp [costPred, timePred, truthyStr, truthyNat]

lemma filter_recipes_time_only (rs : List Recipe) (t : Option Nat) :
    filter_recipes rs none none t = rs.filter (timePred t) := by
  rw [filter_recipes_eq_filter]
  refine List.filter_congr fun a _ => ?_
  simp [costPred, cuisinePred, truthyStr, truthyNat]

lemma decide_mem_filter {l : List Recipe} {p : Recipe → Bool} {r : Recipe} (h : r ∈ l) :
    decide (r ∈ l.filter p) = p r := by
  cases hp : p r with
  | false =>
    have hm : r ∉ l.filter p := fun hmem => by
      have h2 := (List.mem_filter.mp hmem).2
      rw [hp] at h2
      exact Bool.false_ne_true h2
    simp [hm]
  | true =>
    have hm : r ∈ l.filter p := List.mem_filter.mpr ⟨h, hp⟩
    simp [hm]

lemma take_length_append (h ext : Heap) : (h ++ ext).take h.length = h :=
  List.take_left h ext

/- ---------------------------------------------------------------- -/
/- Claim theorems -/
/- ---------------------------------------------------------------- -/

/-- Claim C1: for every non-empty recipe list, the random selector
(random.choice on the filtered subset in main) displays an element that
is present in that list, whatever value the random source takes. -/
theorem surpriseMe_returns_member (l : List Recipe) (i : Nat) (hl : l ≠ []) :
    ∃ r, surpriseMe l i = SurpriseOutcome.displayed r ∧ r ∈ l := by
  cases l with
  | nil => exact absurd rfl hl
  | cons a rest => exact ⟨_, rfl, List.get_mem _ _ _⟩

/-- Witness for C1 at a concrete non-empty list. -/
theorem surpriseMe_returns_member_witness :
    ∃ r, surpriseMe [sampleRecipe] 0 = SurpriseOutcome.displayed r ∧ r ∈ [sampleRecipe] :=
  surpriseMe_returns_member [sampleRecipe] 0 (by decide)

/-- Claim C2 counterexample: a supplied max_time of 0 is falsy in Python,
so filter_recipes does not filter at all; the recipe with cooking_time 30
survives a threshold of 0, refuting the claim as stated at this input. -/
theorem filter_recipes_max_time_zero_cex :
    filter_recipes [sampleRecipe] none none (some 0) ≠
      List.filter (fun r => decide (r.cooking_time ≤ 0)) [sampleRecipe] := by
  decide

/-- Claim C2 (amended): for every supplied positive maximum-time
threshold, filter_recipes returns exactly the recipes whose cooking_time
is at most the threshold (the bound is inclusive). -/
theorem filter_recipes_max_time_inclusive (rs : List Recipe) (t : Nat) (ht : 0 < t) :
    filter_recipes rs none none (some t) =
      rs.filter (fun r => decide (r.cooking_time ≤ t)) := by
  have h0 : (t == 0) = false := beq_eq_false_iff_ne.mpr (Nat.pos_iff_ne_zero.mp ht)
  simp [filter_recipes, truthyStr, truthyNat, h0]

/-- Witness for amended C2 at threshold 30. -/
theorem filter_recipes_max_time_inclusive_witness :
    filter_recipes [sampleRecipe, sampleRecipe2] none none (some 30) =
      List.filter (fun r => decide (r.cooking_time ≤ 30)) [sampleRecipe, sampleRecipe2] :=
  filter_recipes_max_time_inclusive [sampleRecipe, sampleRecipe2] 30 (by decide)

/-- Claim C3 counterexample: a source that decodes as JSON but has no
"recipes" key is malformed, yet load_recipes raises an uncaught KeyError
there instead of reporting and returning an empty collection. -/
theorem load_recipes_missing_key_raises :
    missingOrMalformed (SourceData.parsed none) = true ∧
    load_recipes (SourceData.parsed none) "recipes.json" =
      PyOutcome.raises "KeyError: recipes" :=
  ⟨rfl, rfl⟩

/-- Claim C3 (amended): for a source that is missing or not decodable as
JSON, load_recipes reports an error message and returns the empty
collection without raising. -/
theorem load_recipes_caught_errors (file_path : String) (src : SourceData)
    (h : src = SourceData.notFound ∨ src = SourceData.badJson) :
    ∃ msg : String, load_recipes src file_path = PyOutcome.returns [] [msg] := by
  rcases h with h | h <;> subst h
  · exact ⟨_, rfl⟩
  · exact ⟨_, rfl⟩

/-- Witness for amended C3 at a missing file. -/
theorem load_recipes_caught_errors_witness :
    ∃ msg : String,
      load_recipes SourceData.notFound "recipes.json" = PyOutcome.returns [] [msg] :=
  load_recipes_caught_errors "recipes.json" SourceData.notFound (Or.inl rfl)

/-- Claim C4: on an empty filtered subset the random-pick branch shows a
user-visible error message and never displays a recipe, whatever value
the random source takes (and, being total, it does not crash). -/
theorem surpriseMe_empty_error (i : Nat) :
    surpriseMe [] i =
      SurpriseOutcome.errorMessage "No recipes match your criteria. Try adjusting the filters!" ∧
    ∀ r : Recipe, surpriseMe [] i ≠ SurpriseOutcome.displayed r := by
  refine ⟨rfl, fun r h => ?_⟩
  simp [surpriseMe] at h

/-- Claim C5 counterexample: a supplied empty cuisine string is falsy in
Python, so filter_recipes does not filter at all; the recipe with cuisine
Italian survives the criterion of the empty string, refuting the claim as
stated at this input. -/
theorem filter_recipes_empty_cuisine_cex :
    filter_recipes [sampleRecipe] none (some "") none ≠
      List.filter (fun r => pyLower r.cuisine == pyLower "") [sampleRecipe] := by
  decide

/-- Claim C5 (amended): for every supplied non-empty cuisine string,
filter_recipes returns exactly the recipes whose cuisine equals the
criterion under case-insensitive comparison. -/
theorem filter_recipes_cuisine_case_insensitive (rs : List Recipe) (q : String)
    (hq : q ≠ "") :
    filter_recipes rs none (some q) none =
      rs.filter (fun r => pyLower r.cuisine == pyLower q) := by
  have h0 : (q == "") = false := beq_eq_false_iff_ne.mpr hq
  simp [filter_recipes, truthyStr, truthyNat, h0]

/-- Witness for amended C5: the lowercase criterion italian matches the
recipe whose cuisine field is Italian. -/
theorem filter_recipes_cuisine_case_insensitive_witness :
    filter_recipes [sampleRecipe] none (some "italian") none =
      List.filter (fun r => pyLower r.cuisine == pyLower "italian") [sampleRecipe] :=
  filter_recipes_cuisine_case_insensitive [sampleRecipe] "italian" (by decide)

/-- Claim C6: for every supplied cost tier, filter_recipes returns only
recipes whose cost field is exactly that tier. -/
theorem filter_recipes_cost_exact (rs : List Recipe) (c : String) (hc : isCostTier c) :
    ∀ r ∈ filter_recipes rs (some c) none none, r.cost = c := by
  intro r hr
  have hne : c ≠ "" := by rcases hc with h | h | h <;> subst h <;> decide
  have h0 : (c == "") = false := beq_eq_false_iff_ne.mpr hne
  rw [filter_recipes_cost_only] at hr
  have h2 := (List.mem_filter.mp hr).2
  simp [costPred, truthyStr, h0] at h2
  exact h2

/-- Witness for C6 at the budget tier. -/
theorem filter_recipes_cost_exact_witness : sampleRecipe.cost = "$" :=
  filter_recipes_cost_exact [sampleRecipe] "$" (Or.inl rfl) sampleRecipe (by decide)

/-- Claim C7: for every combination of the three criteria, filter_recipes
with all of them equals the intersection of the three individual filter
results (AND semantics; absent criteria are no-ops by the same equation). -/
theorem filter_recipes_intersection (rs : List Recipe) (c q : Option String) (t : Option Nat) :
    filter_recipes rs c q t =
      (filter_recipes rs c none none ∩ filter_recipes rs none q none) ∩
        filter_recipes rs none none t := by
  rw [filter_recipes_eq_filter rs c q t, filter_recipes_cost_only,
    filter_recipes_cuisine_only, filter_recipes_time_only]
  have hinter : ∀ a b : List Recipe, a ∩ b = a.filter (fun x => b.elem x) := fun a b => rfl
  rw [hinter, hinter, List.filter_filter, List.filter_filter]
  refine List.filter_congr fun r hr => ?_
  simp only [List.elem_eq_mem, decide_mem_filter hr]
  cases costPred c r <;> cases cuisinePred q r <;> cases timePred t r <;> rfl

/-- Claim C8: the filtered result is a sublist of the input: input order
is preserved and no element is duplicated or reordered. -/
theorem filter_recipes_sublist_input (rs : List Recipe) (c q : Option String)
    (t : Option Nat) :
    List.Sublist (filter_recipes rs c q t) rs := by
  rw [filter_recipes_eq_filter]
  exact List.filter_sublist rs

/-- Claim C9: with the random source modelled as an index, every index
i < n selects exactly the i-th element of the filtered list, and a
uniform draw takes the value i with probability 1/n. -/
theorem randomChoice_uniform (l : List Recipe) (i : Nat) (h : i < l.length) :
    randomChoice l i h = l.get ⟨i, h⟩ ∧ drawProb l.length i = 1 / (l.length : ℚ) := by
  refine ⟨rfl, ?_⟩
  unfold drawProb indexDraws
  rw [List.count_eq_one_of_mem (List.nodup_range _) (List.mem_range.mpr h)]
  simp

/-- Witness for C9 on a two-element list at index 1. -/
theorem randomChoice_uniform_witness :
    randomChoice [sampleRecipe, sampleRecipe2] 1 (by decide) =
      [sampleRecipe, sampleRecipe2].get ⟨1, by decide⟩ ∧
    drawProb (List.length [sampleRecipe, sampleRecipe2]) 1 =
      1 / (List.length [sampleRecipe, sampleRecipe2] : ℚ) :=
  randomChoice_uniform [sampleRecipe, sampleRecipe2] 1 (by decide)

/-- Claim C10: filter_recipes never mutates its input: in the heap model
every object existing before the call, in particular the list of recipes
passed in and the records it holds, is unchanged afterwards; the stages
only allocate fresh lists. -/
theorem filter_recipes_heap_no_mutation (h : Heap) (recipesAddr : Nat)
    (cost cuisine : Option String) (max_time : Option Nat) :
    ((filter_recipes_heap h recipesAddr cost cuisine max_time).1).take h.length = h := by
  cases hc : truthyStr cost <;> cases hq : truthyStr cuisine <;>
    cases ht : truthyNat max_time <;>
    simp [filter_recipes_heap, hc, hq, ht, comprehensionFilter, List.append_assoc,
      take_length_append, List.take_length]
